import Mathlib

/-!
Shallow embedding of `client/stt.py` (jasper-client speech-to-text layer).

The Python module defines three STT provider adapters (`GoogleSTT`, `AttSTT`,
`WitAiSTT`) plus a registry/selector (`get_engines`, `get_engine_by_slug`).
Each adapter's `transcribe` posts audio to a remote endpoint and parses the
JSON response.  We embed:
  * JSON values and a model of `json.loads` (fuel-based recursive-descent
    parser over the character list; rejects trailing data like Python);
  * Python subscript/len/iteration/`.upper()` semantics on JSON values,
    returning `Except PyExc` so that which exception class escapes or is
    caught is tracked faithfully;
  * the three `transcribe` methods with the HTTP transport supplied as an
    explicit parameter (`Except PyExc HttpResponse`), since the `requests`
    calls themselves sit outside every `try` block in the source;
  * the selector with the engine registry supplied as an explicit list
    (the source enumerates subclasses reflectively).
-/

/-- Python exception classes that appear in `client/stt.py` control flow.
`requestException` stands for `requests.exceptions.RequestException`
raised by the transport (e.g. `ConnectionError`); `httpError` for
`requests.exceptions.HTTPError` raised by `raise_for_status`. -/
inductive PyExc where
  | typeError
  | keyError
  | indexError
  | attributeError
  | valueError (msg : String)
  | httpError
  | requestException
deriving DecidableEq

/-- JSON values as produced by Python `json.loads`: numbers become one
numeric type (modelled as `ℚ`; the decimal payloads the adapters face are
exactly representable), objects keep their key/value pairs in source order
(lookup takes the last binding, like a Python dict built left to right). -/
inductive Json where
  | null
  | bool (b : Bool)
  | num (q : ℚ)
  | str (s : String)
  | arr (xs : List Json)
  | obj (kvs : List (String × Json))

instance {ε α : Type} [DecidableEq ε] [DecidableEq α] : DecidableEq (Except ε α) := fun a b =>
  match a, b with
  | .error x, .error y =>
    if h : x = y then .isTrue (by rw [h])
    else .isFalse (fun hh => h (by injection hh))
  | .ok x, .ok y =>
    if h : x = y then .isTrue (by rw [h])
    else .isFalse (fun hh => h (by injection hh))
  | .error _, .ok _ => .isFalse (fun hh => Except.noConfusion hh)
  | .ok _, .error _ => .isFalse (fun hh => Except.noConfusion hh)

def quoteChar : Char := Char.ofNat 34

def backslashChar : Char := Char.ofNat 92

def lbraceChar : Char := Char.ofNat 123

def rbraceChar : Char := Char.ofNat 125

def isJsonWs (c : Char) : Bool :=
  c = ' ' || c = Char.ofNat 9 || c = Char.ofNat 10 || c = Char.ofNat 13

def skipWs : List Char → List Char
  | [] => []
  | c :: cs => if isJsonWs c then skipWs cs else c :: cs

/-- One escape character after a backslash inside a JSON string literal. -/
def escChar (c : Char) : Option Char :=
  if c = quoteChar then some quoteChar
  else if c = backslashChar then some backslashChar
  else if c = '/' then some '/'
  else if c = 'n' then some (Char.ofNat 10)
  else if c = 't' then some (Char.ofNat 9)
  else if c = 'r' then some (Char.ofNat 13)
  else if c = 'b' then some (Char.ofNat 8)
  else if c = 'f' then some (Char.ofNat 12)
  else none

def hexDigit (c : Char) : Option Nat :=
  if '0' ≤ c ∧ c ≤ '9' then some (c.toNat - '0'.toNat)
  else if 'a' ≤ c ∧ c ≤ 'f' then some (c.toNat - 'a'.toNat + 10)
  else if 'A' ≤ c ∧ c ≤ 'F' then some (c.toNat - 'A'.toNat + 10)
  else none

/-- Characters of a JSON string literal after the opening quote, with the
remaining input.  `\uXXXX` decodes the code point directly (surrogate-pair
recombination is not modelled; none of the payloads here use it). -/
def parseStrChars : Nat → List Char → Option (List Char × List Char)
  | 0, _ => none
  | _, [] => none
  | fuel + 1, c :: cs =>
    if c = quoteChar then some ([], cs)
    else if c = backslashChar then
      match cs with
      | [] => none
      | e :: cs2 =>
        if e = 'u' then
          match cs2 with
          | h1 :: h2 :: h3 :: h4 :: cs3 =>
            match hexDigit h1, hexDigit h2, hexDigit h3, hexDigit h4 with
            | some a, some b, some c1, some d =>
              match parseStrChars fuel cs3 with
              | none => none
              | some (s, r) =>
                some (Char.ofNat (a * 4096 + b * 256 + c1 * 16 + d) :: s, r)
            | _, _, _, _ => none
          | _ => none
        else
          match escChar e with
          | none => none
          | some ec =>
            match parseStrChars fuel cs2 with
            | none => none
            | some (s, r) => some (ec :: s, r)
    else
      match parseStrChars fuel cs with
      | none => none
      | some (s, r) => some (c :: s, r)

def digitsToNat (ds : List Char) : Nat :=
  ds.foldl (fun acc c => acc * 10 + (c.toNat - '0'.toNat)) 0

/-- JSON integer-part digits: a single `0`, or a nonzero digit followed by
more digits (Python's json rejects leading zeros). -/
def parseIntDigits : List Char → Option (List Char × List Char)
  | [] => none
  | c :: cs =>
    if c = '0' then some ([c], cs)
    else if c.isDigit then
      some (c :: cs.takeWhile Char.isDigit, cs.dropWhile Char.isDigit)
    else none

/-- A JSON number starting at the head of the input (sign, integer part,
optional fraction, optional exponent), as a rational.  The value is
assembled with `mkRat` over plain `Nat`/`Int` arithmetic:
mantissa = all digits run together, denominator = 10^(fraction length),
then scaled by the exponent. -/
def parseNumber (cs0 : List Char) : Option (ℚ × List Char) :=
  let (neg, cs1) :=
    match cs0 with
    | '-' :: rest => (true, rest)
    | _ => (false, cs0)
  match parseIntDigits cs1 with
  | none => none
  | some (ints, cs2) =>
    let fracStep : Option (List Char × List Char) :=
      match cs2 with
      | '.' :: rest =>
        let fd := rest.takeWhile Char.isDigit
        if fd.isEmpty then none
        else some (fd, rest.dropWhile Char.isDigit)
      | _ => some ([], cs2)
    match fracStep with
    | none => none
    | some (fracs, cs3) =>
      let expParse : Option (Bool × Nat × List Char) :=
        match cs3 with
        | e :: rest =>
          if e = 'e' ∨ e = 'E' then
            let (eneg, rest2) :=
              match rest with
              | '-' :: r => (true, r)
              | '+' :: r => (false, r)
              | _ => (false, rest)
            let ed := rest2.takeWhile Char.isDigit
            if ed.isEmpty then none
            else some (eneg, digitsToNat ed, rest2.dropWhile Char.isDigit)
          else some (false, 0, cs3)
        | [] => some (false, 0, cs3)
      match expParse with
      | none => none
      | some (eneg, ex, cs4) =>
        let mant : Nat := digitsToNat (ints ++ fracs)
        let mantI : Int := if neg then -(mant : Int) else (mant : Int)
        let q : ℚ :=
          if eneg then mkRat mantI ((10 : Nat) ^ (fracs.length + ex))
          else mkRat (mantI * ((10 : Nat) ^ ex : Nat)) ((10 : Nat) ^ fracs.length)
        some (q, cs4)

def stripPrefixChars : List Char → List Char → Option (List Char)
  | [], cs => some cs
  | _, [] => none
  | p :: ps, c :: cs => if p = c then stripPrefixChars ps cs else none

mutual

/-- One JSON value starting at the head of the (whitespace-skipped) input. -/
def parseVal : Nat → List Char → Option (Json × List Char)
  | 0, _ => none
  | fuel + 1, cs =>
    match skipWs cs with
    | [] => none
    | c :: rest =>
      if c = quoteChar then
        match parseStrChars (rest.length + 1) rest with
        | none => none
        | some (s, r) => some (.str (String.mk s), r)
      else if c = lbraceChar then
        parseObjBody fuel rest
      else if c = '[' then
        parseArrBody fuel rest
      else if c = 't' then
        match stripPrefixChars ['r', 'u', 'e'] rest with
        | none => none
        | some r => some (.bool true, r)
      else if c = 'f' then
        match stripPrefixChars ['a', 'l', 's', 'e'] rest with
        | none => none
        | some r => some (.bool false, r)
      else if c = 'n' then
        match stripPrefixChars ['u', 'l', 'l'] rest with
        | none => none
        | some r => some (.null, r)
      else
        match parseNumber (c :: rest) with
        | none => none
        | some (q, r) => some (.num q, r)

/-- Array body after the opening bracket. -/
def parseArrBody : Nat → List Char → Option (Json × List Char)
  | 0, _ => none
  | fuel + 1, cs =>
    match skipWs cs with
    | ']' :: rest => some (.arr [], rest)
    | cs' =>
      match parseArrItems fuel cs' with
      | none => none
      | some (xs, r) => some (.arr xs, r)

/-- One or more comma-separated array items, ending at `]`. -/
def parseArrItems : Nat → List Char → Option (List Json × List Char)
  | 0, _ => none
  | fuel + 1, cs =>
    match parseVal fuel cs with
    | none => none
    | some (j, r) =>
      match skipWs r with
      | ',' :: rest =>
        match parseArrItems fuel rest with
        | none => none
        | some (xs, r2) => some (j :: xs, r2)
      | ']' :: rest => some ([j], rest)
      | _ => none

/-- Object body after the opening brace. -/
def parseObjBody : Nat → List Char → Option (Json × List Char)
  | 0, _ => none
  | fuel + 1, cs =>
    match skipWs cs with
    | c :: rest =>
      if c = rbraceChar then some (.obj [], rest)
      else
        match parseObjItems fuel (c :: rest) with
        | none => none
        | some (kvs, r) => some (.obj kvs, r)
    | [] => none

/-- One or more comma-separated `"key": value` members, ending at `}`. -/
def parseObjItems : Nat → List Char → Option (List (String × Json) × List Char)
  | 0, _ => none
  | fuel + 1, cs =>
    match skipWs cs with
    | c :: rest =>
      if c = quoteChar then
        match parseStrChars (rest.length + 1) rest with
        | none => none
        | some (k, r1) =>
          match skipWs r1 with
          | ':' :: r2 =>
            match parseVal fuel r2 with
            | none => none
            | some (v, r3) =>
              match skipWs r3 with
              | ',' :: r4 =>
                match parseObjItems fuel r4 with
                | none => none
                | some (kvs, r5) => some ((String.mk k, v) :: kvs, r5)
              | c2 :: r4 =>
                if c2 = rbraceChar then some ([(String.mk k, v)], r4) else none
              | [] => none
          | _ => none
      else none
    | [] => none

end

/-- Model of Python `json.loads`: parse one document, allow surrounding
whitespace, reject any trailing data ("Extra data"), `none` standing for
the `ValueError` the stdlib raises on failure. -/
def jsonLoads (s : String) : Option Json :=
  let cs := s.toList
  match parseVal (cs.length + 8) cs with
  | none => none
  | some (j, rest) =>
    match skipWs rest with
    | [] => some j
    | _ => none




/-! ## Python value semantics on JSON values -/

/-- Dict lookup on a parsed object: the last binding for a key wins,
matching a Python dict built left to right by the json decoder. -/
def objLookup (kvs : List (String × Json)) (k : String) : Option Json :=
  ((kvs.filter (fun p => p.1 == k)).getLast?).map (fun p => p.2)

/-- Python `value[k]` for a string key: `KeyError` when the key is absent
from a dict, `TypeError` when the value is not a dict. -/
def pyGetKey (j : Json) (k : String) : Except PyExc Json :=
  match j with
  | .obj kvs =>
    match objLookup kvs k with
    | some v => .ok v
    | none => .error .keyError
  | _ => .error .typeError

/-- Python `len(value)`: defined for lists, strings and dicts, `TypeError`
otherwise. -/
def pyLen (j : Json) : Except PyExc Nat :=
  match j with
  | .arr xs => .ok xs.length
  | .str s => .ok s.length
  | .obj kvs => .ok kvs.length
  | _ => .error .typeError

/-- Python `value[0]`: first element of a list or string (`IndexError`
when empty), `KeyError` on a dict (json object keys are strings, so the
int key `0` is absent), `TypeError` otherwise. -/
def pyIndex0 (j : Json) : Except PyExc Json :=
  match j with
  | .arr [] => .error .indexError
  | .arr (x :: _) => .ok x
  | .str s =>
    match s.toList with
    | [] => .error .indexError
    | c :: _ => .ok (.str (String.mk [c]))
  | .obj _ => .error .keyError
  | _ => .error .typeError

/-- Python iteration `for x in value`: list elements, string characters,
dict keys; `TypeError` on non-iterables. -/
def pyIter (j : Json) : Except PyExc (List Json) :=
  match j with
  | .arr xs => .ok xs
  | .str s => .ok (s.toList.map fun c => .str (String.mk [c]))
  | .obj kvs => .ok (kvs.map fun p => .str p.1)
  | _ => .error .typeError

/-- Python `str.upper()` (ASCII case mapping, which covers the adapters'
payloads). -/
def pyUpperStr (s : String) : String :=
  String.mk (s.toList.map Char.toUpper)

/-- Python `value.upper()`: only strings have `.upper`; anything else
raises `AttributeError`. -/
def pyUpper (j : Json) : Except PyExc String :=
  match j with
  | .str s => .ok (pyUpperStr s)
  | _ => .error .attributeError

/-- Python truthiness of a json-decoded value. -/
def pyTruthy (j : Json) : Bool :=
  match j with
  | .null => false
  | .bool b => b
  | .num q => decide (q ≠ 0)
  | .str s => decide (s ≠ "")
  | .arr [] => false
  | .arr (_ :: _) => true
  | .obj [] => false
  | .obj (_ :: _) => true

/-- Python `value == "lit"` for a string literal: true only when the value
is that string (comparison across types is just `False`, no error). -/
def jsonIsStr (j : Json) (s : String) : Bool :=
  match j with
  | .str t => t == s
  | _ => false

/-- Python `a >= b` as used by the sort comparator: numbers compare
numerically, strings lexicographically, mixed types raise `TypeError`
(Python 3 semantics). -/
def jsonGe (a b : Json) : Except PyExc Bool :=
  match a, b with
  | .num x, .num y => .ok (decide (y ≤ x))
  | .str x, .str y => .ok (decide (y ≤ x))
  | _, _ => .error .typeError

/-- A Python list comprehension `[f x for x in xs]`: left to right, first
exception aborts the whole comprehension. -/
def mapExcept (f : α → Except PyExc β) : List α → Except PyExc (List β)
  | [] => .ok []
  | x :: xs =>
    match f x with
    | .error e => .error e
    | .ok y =>
      match mapExcept f xs with
      | .error e => .error e
      | .ok ys => .ok (y :: ys)

/-- Truthiness of an optional string attribute (`None` and `""` falsy). -/
def pyTruthyOptStr (s : Option String) : Bool :=
  match s with
  | none => false
  | some t => decide (t ≠ "")

/-! ## HTTP layer -/

/-- A completed HTTP exchange: status code and decoded body text.  The
`requests` call itself is modelled as `Except PyExc HttpResponse` wherever
the adapters invoke it, because a transport failure surfaces as a raised
`RequestException` at the call site. -/
structure HttpResponse where
  status : Nat
  body : String
deriving DecidableEq

/-- `Response.raise_for_status` raises `HTTPError` exactly for the client
and server error codes 400–599; any other status (including ≥ 600) does
not raise. -/
def raiseForStatus (r : HttpResponse) : Except PyExc Unit :=
  if 400 ≤ r.status ∧ r.status < 600 then .error .httpError else .ok ()

/-! ## GoogleSTT -/

/-- Result type of `GoogleSTT.transcribe`: the source returns a (mutable)
Python `list` on every failure path but a `tuple` of uppercased transcripts
on the success path, so the concrete sequence kind is part of the model. -/
inductive PyStrSeq where
  | list (xs : List String)
  | tuple (xs : List String)
deriving DecidableEq

/-- Instance state of `GoogleSTT` relevant to `transcribe`: `api_key` and
`language` as set by `__init__` (both may be `None`; `language` defaults
to `'en-us'`). -/
structure GoogleSTT where
  api_key : Option String
  language : Option String
deriving DecidableEq

/-- `GoogleSTT(**config)` as built by `get_instance`: the resolved profile
either supplies `api_key` or omits it, in which case the constructor
default `api_key=None` applies; `language` keeps its default `'en-us'`.
Construction never fails. -/
def GoogleSTT.fromConfig (api_key : Option String) : GoogleSTT :=
  { api_key := api_key, language := some "en-us" }

/-- `r.text.strip().split('\n', 1)[-1]`: strip surrounding whitespace,
split at the FIRST newline only, keep the last piece (everything after
that newline, or the whole text when it has no newline). -/
def afterFirstNL : List Char → List Char
  | [] => []
  | c :: cs => if c = Char.ofNat 10 then cs else afterFirstNL cs

def lastChunkChars (cs : List Char) : List Char :=
  if cs.contains (Char.ofNat 10) then afterFirstNL cs else cs

/-- Python `str.strip()` whitespace (space, tab, newline, carriage return,
vertical tab, form feed). -/
def isPyStripWs (c : Char) : Bool :=
  c = ' ' || c = Char.ofNat 9 || c = Char.ofNat 10 || c = Char.ofNat 13 ||
  c = Char.ofNat 11 || c = Char.ofNat 12

def pyStrip (cs : List Char) : List Char :=
  (((cs.dropWhile isPyStripWs).reverse).dropWhile isPyStripWs).reverse

def lastChunk (s : String) : String :=
  String.mk (lastChunkChars (pyStrip s.toList))

/-- The body of the inner `try` of `GoogleSTT.transcribe`:
`response['result']`, the emptiness check (raising
`ValueError('Nothing has been transcribed.')`), then
`[alt['transcript'] for alt in response['result'][0]['alternative']]`. -/
def GoogleSTT.extract (response : Json) : Except PyExc (List Json) :=
  match pyGetKey response "result" with
  | .error e => .error e
  | .ok res =>
    match pyLen res with
    | .error e => .error e
    | .ok n =>
      if n = 0 then .error (.valueError "Nothing has been transcribed.")
      else
        match pyIndex0 res with
        | .error e => .error e
        | .ok first =>
          match pyGetKey first "alternative" with
          | .error e => .error e
          | .ok alts =>
            match pyIter alts with
            | .error e => .error e
            | .ok items => mapExcept (fun alt => pyGetKey alt "transcript") items

/-- `try`/`except`/`else` around the parsed response: `ValueError`,
`KeyError` and `IndexError` are caught (`results = []`, a list); any other
exception propagates.  The `else` branch builds
`tuple(result.upper() for result in results)` — exceptions raised there
(e.g. `AttributeError` on a non-string transcript) are outside the `try`
and propagate. -/
def GoogleSTT.handle (response : Json) : Except PyExc PyStrSeq :=
  match GoogleSTT.extract response with
  | .error (.valueError _) => .ok (.list [])
  | .error .keyError => .ok (.list [])
  | .error .indexError => .ok (.list [])
  | .error e => .error e
  | .ok results =>
    match mapExcept pyUpper results with
    | .error e => .error e
    | .ok ups => .ok (.tuple ups)

/-- `GoogleSTT.transcribe`.  The credential guards return `[]` before any
network traffic; the POST (`self._http.post`, passed in as `post`) sits
outside every `try`, so a transport exception propagates; an HTTP error
status is caught and yields `[]`; a body that `json.loads` cannot parse
(after the strip/split-newline step) raises `ValueError`, which the
`except ValueError` arm turns into `[]`. -/
def GoogleSTT.transcribe (g : GoogleSTT) (post : Except PyExc HttpResponse) :
    Except PyExc PyStrSeq :=
  if ¬ pyTruthyOptStr g.api_key then .ok (.list [])
  else if ¬ pyTruthyOptStr g.language then .ok (.list [])
  else
    match post with
    | .error e => .error e
    | .ok r =>
      match raiseForStatus r with
      | .error _ => .ok (.list [])
      | .ok _ =>
        match jsonLoads (lastChunk r.body) with
        | none => .ok (.list [])
        | some response => GoogleSTT.handle response

/-! ## AttSTT -/

/-- The transport as seen by one `AttSTT.transcribe` call: the n-th POST to
the OAuth token endpoint and the n-th POST to the speech endpoint (counted
from 0 within the call).  A `.error` models a raised
`requests.exceptions.RequestException`. -/
structure AttTransport where
  tokenResp : Nat → Except PyExc HttpResponse
  speechResp : Nat → Except PyExc HttpResponse

/-- Mutable state threaded through an `AttSTT.transcribe` call: the cached
`_token` plus counters for how many token posts and speech posts have been
issued. -/
structure AttCallState where
  _token : Option Json
  tokenPosts : Nat
  speechPosts : Nat

/-- The fetch arm of the `token` property: the client-credentials POST,
caching `r.json()['access_token']`.  Nothing here is wrapped in a `try`,
so transport errors, an unparseable token body (`ValueError`) and a
missing `access_token` key (`KeyError`) all propagate. -/
def AttSTT.fetchToken (tr : AttTransport) (s : AttCallState) :
    Except PyExc (Json × AttCallState) :=
  match tr.tokenResp s.tokenPosts with
  | .error e => .error e
  | .ok r =>
    match jsonLoads r.body with
    | none => .error (.valueError "No JSON object could be decoded")
    | some j =>
      match pyGetKey j "access_token" with
      | .error e => .error e
      | .ok tok =>
        .ok (tok, { _token := some tok, tokenPosts := s.tokenPosts + 1,
                    speechPosts := s.speechPosts })

/-- The `token` property: `if not self._token:` is a Python TRUTHINESS
test, so both `None` and a cached falsy token (empty string, null, 0, …)
trigger the client-credentials fetch; a truthy cached token is returned
as is.  The freshly fetched token is cached and returned even if it is
itself falsy — the check happens only at entry. -/
def AttSTT.token (tr : AttTransport) (s : AttCallState) :
    Except PyExc (Json × AttCallState) :=
  match s._token with
  | some t => if pyTruthy t then .ok (t, s) else AttSTT.fetchToken tr s
  | none => AttSTT.fetchToken tr s

/-- `AttSTT._get_response`: obtain the bearer token (possibly refreshing
it), then POST the audio to the speech endpoint. -/
def AttSTT.getResponse (tr : AttTransport) (s : AttCallState) :
    Except PyExc (HttpResponse × AttCallState) :=
  match AttSTT.token tr s with
  | .error e => .error e
  | .ok (_, s1) =>
    match tr.speechResp s1.speechPosts with
    | .error e => .error e
    | .ok r => .ok (r, { s1 with speechPosts := s1.speechPosts + 1 })

/-- One element of the comprehension
`[(x['Hypothesis'], x['Confidence']) for x in recognition['NBest']]`. -/
def AttSTT.extractPair (x : Json) : Except PyExc (Json × Json) :=
  match pyGetKey x "Hypothesis" with
  | .error e => .error e
  | .ok h =>
    match pyGetKey x "Confidence" with
    | .error e => .error e
    | .ok c => .ok (h, c)

/-- The extraction inside the inner `try` of `AttSTT.transcribe`:
`r.json()['Recognition']`, the `Status != 'OK'` check (raising
`ValueError`), then `[(x['Hypothesis'], x['Confidence']) for x in
recognition['NBest']]`. -/
def AttSTT.parseRecognition (j : Json) : Except PyExc (List (Json × Json)) :=
  match pyGetKey j "Recognition" with
  | .error e => .error e
  | .ok recognition =>
    match pyGetKey recognition "Status" with
    | .error e => .error e
    | .ok status =>
      if ¬ jsonIsStr status "OK" then .error (.valueError "status not OK")
      else
        match pyGetKey recognition "NBest" with
        | .error e => .error e
        | .ok nb =>
          match pyIter nb with
          | .error e => .error e
          | .ok items => mapExcept AttSTT.extractPair items

/-- `sorted(results, key=lambda x: x[1], reverse=True)`: a stable
descending insertion on the confidence component, with the comparator in
`Except` because Python 3 raises `TypeError` on incomparable keys. -/
def AttSTT.insertDesc (x : Json × Json) :
    List (Json × Json) → Except PyExc (List (Json × Json))
  | [] => .ok [x]
  | y :: ys =>
    match jsonGe x.2 y.2 with
    | .error e => .error e
    | .ok b =>
      if b then .ok (x :: y :: ys)
      else
        match AttSTT.insertDesc x ys with
        | .error e => .error e
        | .ok r => .ok (y :: r)

def AttSTT.sortDesc : List (Json × Json) → Except PyExc (List (Json × Json))
  | [] => .ok []
  | x :: xs =>
    match AttSTT.sortDesc xs with
    | .error e => .error e
    | .ok s => AttSTT.insertDesc x s

/-- Everything `AttSTT.transcribe` does with the parsed 2xx response body:
the inner `try` catches `ValueError` (status not OK, or unparseable json
from `r.json()`) and `KeyError`, both yielding `[]`; the `else` branch
sorts by descending confidence and uppercases the hypotheses — exceptions
there propagate. -/
def AttSTT.handleJson (j : Json) : Except PyExc (List String) :=
  match AttSTT.parseRecognition j with
  | .error (.valueError _) => .ok []
  | .error .keyError => .ok []
  | .error e => .error e
  | .ok results =>
    match AttSTT.sortDesc results with
    | .error e => .error e
    | .ok sortedRes =>
      match mapExcept (fun x => pyUpper x.1) sortedRes with
      | .error e => .error e
      | .ok ts => .ok ts

def AttSTT.handleBody (body : String) : Except PyExc (List String) :=
  match jsonLoads body with
  | none => .ok []
  | some j => AttSTT.handleJson j

/-- `AttSTT.transcribe`: POST; on status 401 drop the cached token and POST
exactly once more; then `raise_for_status` (caught → `[]`), then parse.
Returns the transcripts together with the final call state (so the number
of speech/token posts is observable). -/
def AttSTT.transcribe (tr : AttTransport) (s0 : AttCallState) :
    Except PyExc (List String × AttCallState) :=
  match AttSTT.getResponse tr s0 with
  | .error e => .error e
  | .ok (r, s1) =>
    let retried : Except PyExc (HttpResponse × AttCallState) :=
      if r.status = 401 then AttSTT.getResponse tr { s1 with _token := none }
      else .ok (r, s1)
    match retried with
    | .error e => .error e
    | .ok (r2, s2) =>
      match raiseForStatus r2 with
      | .error _ => .ok ([], s2)
      | .ok _ =>
        match AttSTT.handleBody r2.body with
        | .error e => .error e
        | .ok ts => .ok (ts, s2)

/-- `AttSTT.__init__(self, app_key, app_secret)` reached through
`cls(**config)`: both arguments are required positional parameters, so a
profile missing either field makes the call itself raise `TypeError`. -/
structure AttSTT where
  app_key : String
  app_secret : String
deriving DecidableEq

def AttSTT.fromConfig (app_key app_secret : Option String) : Except PyExc AttSTT :=
  match app_key, app_secret with
  | some k, some s => .ok { app_key := k, app_secret := s }
  | _, _ => .error .typeError

/-! ## WitAiSTT -/

/-- `WitAiSTT.__init__(self, access_token)` via `cls(**config)`: the token
is a required positional parameter. -/
structure WitAiSTT where
  access_token : String
deriving DecidableEq

def WitAiSTT.fromConfig (access_token : Option String) : Except PyExc WitAiSTT :=
  match access_token with
  | some t => .ok { access_token := t }
  | none => .error .typeError

/-- The `try` block of `WitAiSTT.transcribe` on a completed response:
`raise_for_status` (HTTPError → `[]`), `r.json()` (ValueError → `[]`),
`['_text']` (KeyError → `[]`); then `text.upper()` when `text` is truthy
— that part is in the `else`, so an `AttributeError` there propagates. -/
def WitAiSTT.handle (r : HttpResponse) : Except PyExc (List String) :=
  let inner : Except PyExc Json :=
    match raiseForStatus r with
    | .error e => .error e
    | .ok _ =>
      match jsonLoads r.body with
      | none => .error (.valueError "No JSON object could be decoded")
      | some j => pyGetKey j "_text"
  match inner with
  | .error .httpError => .ok []
  | .error .requestException => .ok []
  | .error (.valueError _) => .ok []
  | .error .keyError => .ok []
  | .error e => .error e
  | .ok text =>
    if pyTruthy text then
      match pyUpper text with
      | .error e => .error e
      | .ok u => .ok [u]
    else .ok []

/-- `WitAiSTT.transcribe`: the POST itself is before the `try`, so a
transport exception propagates; everything after it is `WitAiSTT.handle`. -/
def WitAiSTT.transcribe (post : Except PyExc HttpResponse) :
    Except PyExc (List String) :=
  match post with
  | .error e => .error e
  | .ok r => WitAiSTT.handle r

/-! ## Registry / selector -/

/-- A registered engine class as the selector sees it: its `SLUG` class
attribute (`none` models a class without the attribute) and the result of
its `is_available()` probe. -/
structure STTEngine where
  slug : Option String
  available : Bool
deriving DecidableEq

/-- `get_engines()`: all discovered subclasses that have a truthy `SLUG`.
The discovered class list is a parameter (the source walks
`__subclasses__` reflectively and materialises a `set`). -/
def get_engines (registry : List STTEngine) : List STTEngine :=
  registry.filter (fun e => pyTruthyOptStr e.slug)

def noEngineMsg (s : String) : String :=
  "No STT engine found for slug '" ++ s ++ "'"

def unavailableMsg (s : String) : String :=
  "STT engine '" ++ s ++ "' is not available (due to missing dependencies, missing dependencies, etc.)"

/-- `get_engine_by_slug`: `TypeError` for a falsy or non-string slug;
`ValueError` when no engine matches; a console warning (returned here as
the `Bool` component) plus first-match selection when several match;
`ValueError` when the selected engine's `is_available()` is false. -/
def get_engine_by_slug (registry : List STTEngine) (slug : Option String) :
    Except PyExc (STTEngine × Bool) :=
  if ¬ pyTruthyOptStr slug then .error .typeError
  else
    let s := slug.getD ""
    match (get_engines registry).filter (fun e => e.slug == some s) with
    | [] => .error (.valueError (noEngineMsg s))
    | e :: rest =>
      if ¬ e.available then .error (.valueError (unavailableMsg s))
      else .ok (e, decide (rest ≠ []))

/-- The three engines of the module, with the network-reachability probe
(`diagnose.check_network_connection`) supplied as a parameter — all three
`is_available` implementations delegate to it. -/
def jasperRegistry (net : Bool) : List STTEngine :=
  [{ slug := some "google", available := net },
   { slug := some "att", available := net },
   { slug := some "witai", available := net }]

/-! ## Concrete fixtures and spec-side constructions used by the theorems -/

/-- A fully configured Google adapter (api key present, default locale). -/
def googleReady : GoogleSTT := { api_key := some "testkey", language := some "en-us" }

/-- The spec's multi-document example body:
`{"result":[]}` newline `{"result":[{"alternative":[{"transcript":"hello"}]}]}`. -/
def twoDocBody : String :=
  "\x7b\"result\":[]\x7d\n\x7b\"result\":[\x7b\"alternative\":[\x7b\"transcript\":\"hello\"\x7d]\x7d]\x7d"

/-- Three newline-separated documents, the last carrying the transcript. -/
def threeDocBody : String :=
  "\x7b\"result\":[]\x7d\n\x7b\"result\":[]\x7d\n\x7b\"result\":[\x7b\"alternative\":[\x7b\"transcript\":\"hello\"\x7d]\x7d]\x7d"

/-- Only the last document of `threeDocBody`. -/
def lastDocBody : String :=
  "\x7b\"result\":[\x7b\"alternative\":[\x7b\"transcript\":\"hello\"\x7d]\x7d]\x7d"

/-- A well-formed Google response value with the given transcript
alternatives: `{"result": [{"alternative": [{"transcript": t}, ...]}]}`. -/
def mkGoogleResult (alts : List String) : Json :=
  .obj [("result", .arr [.obj [("alternative",
    .arr (alts.map fun t => .obj [("transcript", .str t)]))]])]

/-- A well-formed AT&T recognition envelope with status OK and the given
n-best (hypothesis, confidence) list. -/
def mkAttOk (nbest : List (String × ℚ)) : Json :=
  .obj [("Recognition", .obj [("Status", .str "OK"),
    ("NBest", .arr (nbest.map fun p =>
      .obj [("Hypothesis", .str p.1), ("Confidence", .num p.2)]))])]

/-- The json pair an n-best entry extracts to. -/
def pairToJson (p : String × ℚ) : Json × Json := (.str p.1, .num p.2)

/-- Pure descending-by-confidence stable sort on (hypothesis, confidence)
pairs, for stating what the AT&T adapter's sort computes. -/
def sortNBest (l : List (String × ℚ)) : List (String × ℚ) :=
  List.insertionSort (fun a b => b.2 ≤ a.2) l

instance : IsTotal (String × ℚ) (fun a b => b.2 ≤ a.2) :=
  ⟨fun a b => le_total b.2 a.2⟩

instance : IsTrans (String × ℚ) (fun a b => b.2 ≤ a.2) :=
  ⟨fun _ _ _ h1 h2 => le_trans h2 h1⟩

/-- Transport fixture: both speech posts come back 401 Unauthorized, the
token endpoint hands out a fresh token. -/
def attDoubly401 : AttTransport :=
  ⟨fun _ => .ok ⟨200, "\x7b\"access_token\":\"fresh\"\x7d"⟩,
   fun _ => .ok ⟨401, "Unauthorized"⟩⟩

/-- Transport fixture for the confidence-ordering example: n-best
`[("a",0.2),("b",0.9)]`. -/
def attConfExample : AttTransport :=
  ⟨fun _ => .ok ⟨200, "\x7b\"access_token\":\"fresh\"\x7d"⟩,
   fun _ => .ok ⟨200, "\x7b\"Recognition\":\x7b\"Status\":\"OK\",\"NBest\":[\x7b\"Hypothesis\":\"a\",\"Confidence\":0.2\x7d,\x7b\"Hypothesis\":\"b\",\"Confidence\":0.9\x7d]\x7d\x7d"⟩⟩

/-- Initial call state with a (stale) cached token and zeroed counters. -/
def attStaleState : AttCallState :=
  { _token := some (.str "stale"), tokenPosts := 0, speechPosts := 0 }

/-- A registry in which two distinct engine classes claim the same slug. -/
def dupRegistry : List STTEngine :=
  [{ slug := some "dup", available := true },
   { slug := some "dup", available := false }]

/-! ## Claim theorems -/

/-- C9: `get_engine_by_slug` called with an empty slug or with `None`
always fails with the invalid-argument error (raised as `TypeError` in the
source), for every registry. -/
theorem selector_invalid_slug (registry : List STTEngine) :
    get_engine_by_slug registry none = .error .typeError ∧
    get_engine_by_slug registry (some "") = .error .typeError := by
  constructor <;> simp [get_engine_by_slug, pyTruthyOptStr]

/-- C2 counterexample: the empty string is a slug that matches no
registered provider, yet `get_engine_by_slug` fails with `TypeError`
(the invalid-argument error), not with the unknown-slug lookup error. -/
theorem selector_empty_slug_cex :
    get_engine_by_slug (jasperRegistry true) (some "") = .error .typeError ∧
    get_engine_by_slug (jasperRegistry true) (some "") ≠
      .error (.valueError (noEngineMsg "")) := by
  constructor
  · simp [get_engine_by_slug, pyTruthyOptStr]
  · simp [get_engine_by_slug, pyTruthyOptStr]

/-- C2 (amended): for every NON-EMPTY slug string that matches no
registered provider, `get_engine_by_slug` fails with the unknown-slug
lookup error (raised as `ValueError("No STT engine found ...")`); the
empty string instead hits the invalid-argument guard first. -/
theorem selector_unknown_slug (registry : List STTEngine) (s : String)
    (hs : s ≠ "") (hnone : ∀ e ∈ get_engines registry, e.slug ≠ some s) :
    get_engine_by_slug registry (some s) = .error (.valueError (noEngineMsg s)) := by
  have hf : (get_engines registry).filter (fun e => e.slug == some s) = [] := by
    rw [List.filter_eq_nil_iff]
    intro e he
    simp [hnone e he]
  simp [get_engine_by_slug, pyTruthyOptStr, hs, hf]

theorem selector_unknown_slug_witness :
    get_engine_by_slug (jasperRegistry true) (some "nonexistent") =
      .error (.valueError (noEngineMsg "nonexistent")) :=
  selector_unknown_slug (jasperRegistry true) "nonexistent" (by decide) (by decide)

/-- C6: when several registered engines claim the requested slug, the
selector warns (the `Bool` component is `true`) and picks the first match
in enumeration order; and since selection is a pure function of the
registry and slug, any two calls with the same arguments pick the same
engine. -/
theorem selector_first_match (registry : List STTEngine) (s : String)
    (e : STTEngine) (rest : List STTEngine) (hs : s ≠ "")
    (hf : (get_engines registry).filter (fun en => en.slug == some s) = e :: rest)
    (hdup : rest ≠ []) (hav : e.available = true) :
    get_engine_by_slug registry (some s) = .ok (e, true) ∧
    ∀ e2 w2, get_engine_by_slug registry (some s) = .ok (e2, w2) → e2 = e := by
  have h1 : get_engine_by_slug registry (some s) = .ok (e, true) := by
    simp [get_engine_by_slug, pyTruthyOptStr, hs, hf, hav, hdup]
  refine ⟨h1, ?_⟩
  intro e2 w2 h2
  rw [h1] at h2
  injection h2 with h3
  exact (congrArg Prod.fst h3).symm

theorem selector_first_match_witness :
    get_engine_by_slug dupRegistry (some "dup") =
      .ok ({ slug := some "dup", available := true }, true) :=
  (selector_first_match dupRegistry "dup"
    { slug := some "dup", available := true }
    [{ slug := some "dup", available := false }]
    (by decide) (by decide) (by decide) (by decide)).1

/-- C3 counterexample: with the `GOOGLE_SPEECH` credential absent from the
profile, instantiation of `GoogleSTT` succeeds anyway (the constructor
defaults `api_key` to `None`), so a partially configured instance IS
observable to callers — no ConfigurationError is raised; its `transcribe`
aborts before any network call and returns an empty list. -/
theorem google_missing_key_cex :
    (GoogleSTT.fromConfig none).api_key = none ∧
    GoogleSTT.transcribe (GoogleSTT.fromConfig none) (.error .requestException) =
      .ok (.list []) := by
  constructor
  · rfl
  · simp [GoogleSTT.transcribe, GoogleSTT.fromConfig, pyTruthyOptStr]

/-- C3 (amended): only `AttSTT` and `WitAiSTT` require their credentials at
construction time (a missing field makes `cls(**config)` itself raise
`TypeError`); `GoogleSTT` instantiation succeeds with the api key absent,
yielding an observable instance whose `api_key` is `None` and whose
`transcribe` aborts — for every transport — with an empty list and no
network exchange. -/
theorem provider_instantiation (post : Except PyExc HttpResponse)
    (k sec : Option String) :
    (GoogleSTT.fromConfig none).api_key = none ∧
    GoogleSTT.transcribe (GoogleSTT.fromConfig none) post = .ok (.list []) ∧
    (k = none ∨ sec = none → AttSTT.fromConfig k sec = .error .typeError) ∧
    WitAiSTT.fromConfig none = .error .typeError := by
  refine ⟨rfl, ?_, ?_, rfl⟩
  · simp [GoogleSTT.transcribe, GoogleSTT.fromConfig, pyTruthyOptStr]
  · rintro (hk | hsec)
    · subst hk
      cases sec <;> rfl
    · subst hsec
      cases k <;> rfl

theorem provider_instantiation_witness :
    GoogleSTT.transcribe (GoogleSTT.fromConfig none) (.error .requestException) =
      .ok (.list []) ∧
    AttSTT.fromConfig none none = .error .typeError :=
  ⟨(provider_instantiation (.error .requestException) none none).2.1,
   (provider_instantiation (.error .requestException) none none).2.2.1 (Or.inl rfl)⟩

/-- C1 counterexample: a transport exception raised while sending the POST
request is NOT absorbed: `self._http.post` sits before the `try` block, so
`GoogleSTT.transcribe` on a fully configured instance propagates the
`RequestException` instead of returning an empty result. -/
theorem transcribe_transport_cex :
    GoogleSTT.transcribe googleReady (.error .requestException) =
      .error .requestException ∧
    GoogleSTT.transcribe googleReady (.error .requestException) ≠
      .ok (.list []) := by
  constructor
  · simp [GoogleSTT.transcribe, googleReady, pyTruthyOptStr]
  · simp [GoogleSTT.transcribe, googleReady, pyTruthyOptStr]

/-- C1 (amended): for all three adapters, an HTTP error status (the
400–599 range `raise_for_status` covers), an unparseable (malformed)
payload, and an empty/failed recognition are absorbed and mapped to an
empty result — but a transport exception raised while sending the POST
request propagates out of `transcribe` (on a configured instance with a
truthy cached token for AT&T; an unconfigured Google instance returns
`[]` before posting). -/
theorem transcribe_error_absorption :
    (∀ (g : GoogleSTT) (e : PyExc), pyTruthyOptStr g.api_key = true →
       pyTruthyOptStr g.language = true →
       GoogleSTT.transcribe g (.error e) = .error e) ∧
    (∀ (g : GoogleSTT) (r : HttpResponse), 400 ≤ r.status → r.status < 600 →
       GoogleSTT.transcribe g (.ok r) = .ok (.list [])) ∧
    (∀ (g : GoogleSTT) (r : HttpResponse), r.status < 400 →
       jsonLoads (lastChunk r.body) = none →
       GoogleSTT.transcribe g (.ok r) = .ok (.list [])) ∧
    (∀ (g : GoogleSTT) (r : HttpResponse) (j : Json), r.status < 400 →
       jsonLoads (lastChunk r.body) = some j →
       pyGetKey j "result" = .ok (.arr []) →
       GoogleSTT.transcribe g (.ok r) = .ok (.list [])) ∧
    (∀ (tr : AttTransport) (s0 : AttCallState) (t : Json) (e : PyExc),
       s0._token = some t → pyTruthy t = true →
       tr.speechResp s0.speechPosts = .error e →
       AttSTT.transcribe tr s0 = .error e) ∧
    (∀ (tr : AttTransport) (s0 : AttCallState) (t : Json) (r : HttpResponse),
       s0._token = some t → pyTruthy t = true →
       tr.speechResp s0.speechPosts = .ok r →
       400 ≤ r.status → r.status < 600 → r.status ≠ 401 →
       ∃ s2, AttSTT.transcribe tr s0 = .ok ([], s2)) ∧
    (∀ body, jsonLoads body = none → AttSTT.handleBody body = .ok []) ∧
    (∀ (j rcg st : Json), pyGetKey j "Recognition" = .ok rcg →
       pyGetKey rcg "Status" = .ok st → jsonIsStr st "OK" = false →
       AttSTT.handleJson j = .ok []) ∧
    (∀ e, WitAiSTT.transcribe (.error e) = .error e) ∧
    (∀ r : HttpResponse, 400 ≤ r.status → r.status < 600 →
       WitAiSTT.transcribe (.ok r) = .ok []) ∧
    (∀ r : HttpResponse, r.status < 400 → jsonLoads r.body = none →
       WitAiSTT.transcribe (.ok r) = .ok []) ∧
    (∀ (r : HttpResponse) (j : Json), r.status < 400 → jsonLoads r.body = some j →
       pyGetKey j "_text" = .ok (.str "") → WitAiSTT.transcribe (.ok r) = .ok []) := by
  refine ⟨?_, ?_, ?_, ?_, ?_, ?_, ?_, ?_, ?_, ?_, ?_, ?_⟩
  · intro g e hk hl
    simp [GoogleSTT.transcribe, hk, hl]
  · intro g r h h6
    by_cases hk : pyTruthyOptStr g.api_key
    · by_cases hl : pyTruthyOptStr g.language
      · simp [GoogleSTT.transcribe, hk, hl, raiseForStatus, h, h6]
      · simp [GoogleSTT.transcribe, hk, hl]
    · simp [GoogleSTT.transcribe, hk]
  · intro g r h h2
    have h' : ¬ 400 ≤ r.status := by omega
    by_cases hk : pyTruthyOptStr g.api_key
    · by_cases hl : pyTruthyOptStr g.language
      · simp [GoogleSTT.transcribe, hk, hl, raiseForStatus, h', h2]
      · simp [GoogleSTT.transcribe, hk, hl]
    · simp [GoogleSTT.transcribe, hk]
  · intro g r j h h2 h3
    have h' : ¬ 400 ≤ r.status := by omega
    by_cases hk : pyTruthyOptStr g.api_key
    · by_cases hl : pyTruthyOptStr g.language
      · simp [GoogleSTT.transcribe, hk, hl, raiseForStatus, h', h2,
              GoogleSTT.handle, GoogleSTT.extract, h3, pyLen]
      · simp [GoogleSTT.transcribe, hk, hl]
    · simp [GoogleSTT.transcribe, hk]
  · intro tr s0 t e ht htt hr
    simp [AttSTT.transcribe, AttSTT.getResponse, AttSTT.token, ht, htt, hr]
  · intro tr s0 t r ht htt hr hst hst6 h401
    refine ⟨{ s0 with speechPosts := s0.speechPosts + 1 }, ?_⟩
    simp [AttSTT.transcribe, AttSTT.getResponse, AttSTT.token, ht, htt, hr, h401,
          raiseForStatus, hst, hst6]
  · intro body h
    simp [AttSTT.handleBody, h]
  · intro j rcg st h1 h2 h3
    simp [AttSTT.handleJson, AttSTT.parseRecognition, h1, h2, h3]
  · intro e
    rfl
  · intro r h h6
    simp [WitAiSTT.transcribe, WitAiSTT.handle, raiseForStatus, h, h6]
  · intro r h h2
    have h' : ¬ 400 ≤ r.status := by omega
    simp [WitAiSTT.transcribe, WitAiSTT.handle, raiseForStatus, h', h2]
  · intro r j h h2 h3
    have h' : ¬ 400 ≤ r.status := by omega
    simp [WitAiSTT.transcribe, WitAiSTT.handle, raiseForStatus, h', h2, h3, pyTruthy]

theorem transcribe_error_absorption_witness :
    GoogleSTT.transcribe googleReady (.error .requestException) =
      .error .requestException ∧
    GoogleSTT.transcribe googleReady (.ok ⟨500, "Server Error"⟩) = .ok (.list []) ∧
    GoogleSTT.transcribe googleReady (.ok ⟨200, "not json"⟩) = .ok (.list []) ∧
    GoogleSTT.transcribe googleReady (.ok ⟨200, "\x7b\"result\":[]\x7d"⟩) =
      .ok (.list []) ∧
    AttSTT.transcribe
      ⟨fun _ => .ok ⟨200, ""⟩, fun _ => .error .requestException⟩ attStaleState =
      .error .requestException ∧
    (∃ s2, AttSTT.transcribe
      ⟨fun _ => .ok ⟨200, ""⟩, fun _ => .ok ⟨500, "err"⟩⟩ attStaleState =
      .ok ([], s2)) ∧
    AttSTT.handleBody "not json" = .ok [] ∧
    AttSTT.handleJson (.obj [("Recognition", .obj [("Status", .str "Bad")])]) =
      .ok [] ∧
    WitAiSTT.transcribe (.error .requestException) = .error .requestException ∧
    WitAiSTT.transcribe (.ok ⟨500, ""⟩) = .ok [] ∧
    WitAiSTT.transcribe (.ok ⟨200, "not json"⟩) = .ok [] ∧
    WitAiSTT.transcribe (.ok ⟨200, "\x7b\"_text\":\"\"\x7d"⟩) = .ok [] :=
  ⟨transcribe_error_absorption.1 googleReady .requestException rfl rfl,
   transcribe_error_absorption.2.1 googleReady ⟨500, "Server Error"⟩
     (by decide) (by decide),
   transcribe_error_absorption.2.2.1 googleReady ⟨200, "not json"⟩ (by decide) rfl,
   transcribe_error_absorption.2.2.2.1 googleReady ⟨200, "\x7b\"result\":[]\x7d"⟩
     (.obj [("result", .arr [])]) (by decide) rfl rfl,
   transcribe_error_absorption.2.2.2.2.1
     ⟨fun _ => .ok ⟨200, ""⟩, fun _ => .error .requestException⟩ attStaleState
     (.str "stale") .requestException rfl (by decide) rfl,
   transcribe_error_absorption.2.2.2.2.2.1
     ⟨fun _ => .ok ⟨200, ""⟩, fun _ => .ok ⟨500, "err"⟩⟩ attStaleState
     (.str "stale") ⟨500, "err"⟩ rfl (by decide) rfl (by decide) (by decide)
     (by decide),
   transcribe_error_absorption.2.2.2.2.2.2.1 "not json" rfl,
   transcribe_error_absorption.2.2.2.2.2.2.2.1
     (.obj [("Recognition", .obj [("Status", .str "Bad")])])
     (.obj [("Status", .str "Bad")]) (.str "Bad") rfl rfl rfl,
   transcribe_error_absorption.2.2.2.2.2.2.2.2.1 .requestException,
   transcribe_error_absorption.2.2.2.2.2.2.2.2.2.1 ⟨500, ""⟩ (by decide)
     (by decide),
   transcribe_error_absorption.2.2.2.2.2.2.2.2.2.2.1 ⟨200, "not json"⟩
     (by decide) rfl,
   transcribe_error_absorption.2.2.2.2.2.2.2.2.2.2.2 ⟨200, "\x7b\"_text\":\"\"\x7d"⟩
     (.obj [("_text", .str "")]) (by decide) rfl rfl⟩

theorem afterFirstNL_append (b : List Char) :
    ∀ a : List Char, Char.ofNat 10 ∉ a →
      afterFirstNL (a ++ Char.ofNat 10 :: b) = b := by
  intro a ha
  induction a with
  | nil => simp [afterFirstNL]
  | cons c cs ih =>
    have hc : ¬ c = Char.ofNat 10 := fun h => ha (h ▸ List.mem_cons_self c cs)
    simp only [List.cons_append, afterFirstNL, if_neg hc]
    exact ih (fun hm => ha (List.mem_cons_of_mem c hm))

/-- C4 counterexample: with THREE newline-separated documents the adapter
does not parse the last one — `split('\n', 1)` severs only the first
document, the remaining two documents are not valid JSON together, and the
call returns an empty list instead of `["HELLO"]` (which is what parsing
only the last document, shown here as `lastDocBody`, would give). -/
theorem google_three_doc_cex :
    GoogleSTT.transcribe googleReady (.ok ⟨200, threeDocBody⟩) = .ok (.list []) ∧
    GoogleSTT.transcribe googleReady (.ok ⟨200, lastDocBody⟩) = .ok (.tuple ["HELLO"]) ∧
    GoogleSTT.transcribe googleReady (.ok ⟨200, threeDocBody⟩) ≠
      .ok (.tuple ["HELLO"]) := by
  refine ⟨by decide, by decide, by decide⟩

/-- C4 (amended): the GET-style adapter discards only the text before the
FIRST newline of the stripped body and parses the entire remainder as one
JSON document.  For a body of exactly two newline-separated documents this
is the last document — the spec's example body yields `["HELLO"]` — but
for three or more documents the remainder is not a single JSON document
and `transcribe` returns `[]`. -/
theorem google_multi_doc :
    (∀ a b : List Char, Char.ofNat 10 ∉ a →
       lastChunkChars (a ++ Char.ofNat 10 :: b) = b) ∧
    GoogleSTT.transcribe googleReady (.ok ⟨200, twoDocBody⟩) =
      .ok (.tuple ["HELLO"]) ∧
    GoogleSTT.transcribe googleReady (.ok ⟨200, threeDocBody⟩) = .ok (.list []) := by
  refine ⟨?_, by decide, by decide⟩
  intro a b ha
  have hc : (a ++ Char.ofNat 10 :: b).contains (Char.ofNat 10) = true := by
    have hm : Char.ofNat 10 ∈ a ++ Char.ofNat 10 :: b :=
      List.mem_append_right _ (List.mem_cons_self _ _)
    exact List.elem_eq_true_of_mem hm
  simp only [lastChunkChars, hc, if_pos]
  exact afterFirstNL_append b a ha

theorem google_multi_doc_witness :
    lastChunkChars (['x'] ++ Char.ofNat 10 :: ['y']) = ['y'] :=
  google_multi_doc.1 ['x'] ['y'] (by decide)

theorem mapExcept_transcript (alts : List String) :
    mapExcept (fun alt => pyGetKey alt "transcript")
      (alts.map fun t => Json.obj [("transcript", .str t)]) =
      .ok (alts.map Json.str) := by
  induction alts with
  | nil => rfl
  | cons t ts ih =>
    have hhead : pyGetKey (Json.obj [("transcript", Json.str t)]) "transcript" =
        .ok (.str t) := rfl
    simp only [List.map_cons, mapExcept, hhead, ih]

theorem mapExcept_upper_str (l : List String) :
    mapExcept pyUpper (l.map Json.str) = .ok (l.map pyUpperStr) := by
  induction l with
  | nil => rfl
  | cons t ts ih => simp [mapExcept, pyUpper, ih]

/-- C10 counterexample: the payload `{"result":[{"alternative":[]}]}`
parses successfully but contains ZERO transcripts, and the adapter still
returns a tuple (the empty tuple), not a list — so "tuple exactly when at
least one transcript was parsed" fails. -/
theorem google_empty_tuple_cex :
    GoogleSTT.transcribe googleReady
      (.ok ⟨200, "\x7b\"result\":[\x7b\"alternative\":[]\x7d]\x7d"⟩) =
      .ok (.tuple []) ∧
    GoogleSTT.transcribe googleReady
      (.ok ⟨200, "\x7b\"result\":[\x7b\"alternative\":[]\x7d]\x7d"⟩) ≠
      .ok (.list []) := by
  refine ⟨by decide, by decide⟩

theorem pyGetKey_ne_index (j : Json) (k : String) :
    pyGetKey j k ≠ .error .indexError := by
  cases j <;> simp only [pyGetKey] <;> try simp
  case obj kvs => cases h : objLookup kvs k <;> simp

theorem pyIter_ne_index (j : Json) : pyIter j ≠ .error .indexError := by
  cases j <;> simp [pyIter]

theorem mapExcept_transcript_ne_index (items : List Json) :
    mapExcept (fun alt => pyGetKey alt "transcript") items ≠
      .error .indexError := by
  induction items with
  | nil => simp [mapExcept]
  | cons x xs ih =>
    simp only [mapExcept]
    cases hx : pyGetKey x "transcript" with
    | error e =>
      have hne := pyGetKey_ne_index x "transcript"
      rw [hx] at hne
      simpa using hne
    | ok y =>
      cases hm : mapExcept (fun alt => pyGetKey alt "transcript") xs with
      | error e =>
        rw [hm] at ih
        simpa using ih
      | ok ys => simp

/-- The `except IndexError` arm of `GoogleSTT.transcribe` is defensive
dead code: `response['result'][0]` is guarded by the emptiness check, so
the extraction can raise ValueError, KeyError or TypeError but never
IndexError. -/
theorem google_extract_ne_index (j : Json) :
    GoogleSTT.extract j ≠ .error .indexError := by
  unfold GoogleSTT.extract
  cases hres : pyGetKey j "result" with
  | error e =>
    have hne := pyGetKey_ne_index j "result"
    rw [hres] at hne
    simpa using hne
  | ok res =>
    cases res with
    | null => simp [pyLen]
    | bool b => simp [pyLen]
    | num q => simp [pyLen]
    | obj kvs =>
      cases kvs with
      | nil => simp [pyLen]
      | cons kv kvs2 => simp [pyLen, pyIndex0]
    | str s =>
      simp only [pyLen]
      by_cases hn : s.length = 0
      · simp [hn]
      · cases hd : s.data with
        | nil =>
          exfalso
          apply hn
          have hl : s.length = s.data.length := rfl
          rw [hl, hd]
          rfl
        | cons c cs => simp [hn, pyIndex0, hd, pyGetKey]
    | arr xs =>
      cases xs with
      | nil => simp [pyLen]
      | cons x xs2 =>
        have htail : ∀ alts : Json,
            (match pyIter alts with
             | Except.error e => Except.error e
             | Except.ok items =>
                 mapExcept (fun alt => pyGetKey alt "transcript") items) ≠
              (Except.error PyExc.indexError : Except PyExc (List Json)) := by
          intro alts
          cases hiter : pyIter alts with
          | error e =>
            have hne := pyIter_ne_index alts
            rw [hiter] at hne
            simpa using hne
          | ok items => exact mapExcept_transcript_ne_index items
        simp only [pyLen, List.length_cons, pyIndex0]
        have hnz : ¬ (xs2.length + 1 = 0) := Nat.succ_ne_zero _
        simp only [hnz, if_false, if_neg hnz]
        cases halt : pyGetKey x "alternative" with
        | error e =>
          have hne := pyGetKey_ne_index x "alternative"
          rw [halt] at hne
          simpa using hne
        | ok alts => exact htail alts

/-- C10 (amended): the Google adapter returns a (mutable) list on every
failure or empty-recognition path — HTTP error status (400–599),
unparseable body, empty result array (the ValueError arm), and missing
keys (the KeyError arm; the IndexError arm is unreachable behind the
emptiness guard) — and a tuple of the uppercased transcripts exactly when
the result/alternative structure parsed successfully, including with ZERO
alternatives, in which case the caller observes an empty tuple. -/
theorem google_result_kind :
    (∀ alts : List String, GoogleSTT.handle (mkGoogleResult alts) =
       .ok (.tuple (alts.map pyUpperStr))) ∧
    (∀ (g : GoogleSTT) (r : HttpResponse), 400 ≤ r.status → r.status < 600 →
       GoogleSTT.transcribe g (.ok r) = .ok (.list [])) ∧
    (∀ (g : GoogleSTT) (r : HttpResponse), r.status < 400 →
       jsonLoads (lastChunk r.body) = none →
       GoogleSTT.transcribe g (.ok r) = .ok (.list [])) ∧
    (∀ j : Json, pyGetKey j "result" = .ok (.arr []) →
       GoogleSTT.handle j = .ok (.list [])) ∧
    (∀ (g : GoogleSTT) (r : HttpResponse) (j : Json), r.status < 400 →
       jsonLoads (lastChunk r.body) = some j →
       GoogleSTT.extract j = .error .keyError →
       GoogleSTT.transcribe g (.ok r) = .ok (.list [])) ∧
    (∀ j : Json, GoogleSTT.extract j ≠ .error .indexError) ∧
    GoogleSTT.transcribe googleReady (.ok ⟨200, "\x7b\"result\":[\x7b\x7d]\x7d"⟩) =
      .ok (.list []) ∧
    GoogleSTT.handle (mkGoogleResult []) = .ok (.tuple []) := by
  refine ⟨?_, ?_, ?_, ?_, ?_, google_extract_ne_index, by decide, by decide⟩
  · intro alts
    have e1 : pyGetKey (mkGoogleResult alts) "result" =
        .ok (.arr [Json.obj [("alternative",
          .arr (alts.map fun t => Json.obj [("transcript", Json.str t)]))]]) := rfl
    have e2 : pyGetKey (Json.obj [("alternative",
          .arr (alts.map fun t => Json.obj [("transcript", Json.str t)]))])
        "alternative" =
        .ok (.arr (alts.map fun t => Json.obj [("transcript", Json.str t)])) := rfl
    simp [GoogleSTT.handle, GoogleSTT.extract, e1, e2, pyLen, pyIndex0, pyIter,
          mapExcept_transcript, mapExcept_upper_str]
  · intro g r h h6
    by_cases hk : pyTruthyOptStr g.api_key
    · by_cases hl : pyTruthyOptStr g.language
      · simp [GoogleSTT.transcribe, hk, hl, raiseForStatus, h, h6]
      · simp [GoogleSTT.transcribe, hk, hl]
    · simp [GoogleSTT.transcribe, hk]
  · intro g r h h2
    have h' : ¬ 400 ≤ r.status := by omega
    by_cases hk : pyTruthyOptStr g.api_key
    · by_cases hl : pyTruthyOptStr g.language
      · simp [GoogleSTT.transcribe, hk, hl, raiseForStatus, h', h2]
      · simp [GoogleSTT.transcribe, hk, hl]
    · simp [GoogleSTT.transcribe, hk]
  · intro j h3
    simp [GoogleSTT.handle, GoogleSTT.extract, h3, pyLen]
  · intro g r j h h2 h3
    have h' : ¬ 400 ≤ r.status := by omega
    by_cases hk : pyTruthyOptStr g.api_key
    · by_cases hl : pyTruthyOptStr g.language
      · simp [GoogleSTT.transcribe, hk, hl, raiseForStatus, h', h2,
              GoogleSTT.handle, h3]
      · simp [GoogleSTT.transcribe, hk, hl]
    · simp [GoogleSTT.transcribe, hk]

theorem google_result_kind_witness :
    GoogleSTT.handle (mkGoogleResult ["hello"]) = .ok (.tuple ["HELLO"]) ∧
    GoogleSTT.transcribe googleReady (.ok ⟨403, "Forbidden"⟩) = .ok (.list []) ∧
    GoogleSTT.transcribe googleReady (.ok ⟨200, "junk"⟩) = .ok (.list []) ∧
    GoogleSTT.handle (.obj [("result", .arr [])]) = .ok (.list []) ∧
    GoogleSTT.transcribe googleReady
      (.ok ⟨200, "\x7b\"result\":[\x7b\x7d]\x7d"⟩) = .ok (.list []) ∧
    GoogleSTT.extract (.obj [("result", .arr [.obj []])]) ≠
      .error .indexError :=
  ⟨google_result_kind.1 ["hello"],
   google_result_kind.2.1 googleReady ⟨403, "Forbidden"⟩ (by decide) (by decide),
   google_result_kind.2.2.1 googleReady ⟨200, "junk"⟩ (by decide) rfl,
   google_result_kind.2.2.2.1 (.obj [("result", .arr [])]) rfl,
   google_result_kind.2.2.2.2.1 googleReady ⟨200, "\x7b\"result\":[\x7b\x7d]\x7d"⟩
     (.obj [("result", .arr [.obj []])]) (by decide) rfl rfl,
   google_result_kind.2.2.2.2.2.1 (.obj [("result", .arr [.obj []])])⟩

/-- C5: a `transcribe` call holding a truthy cached token whose first
speech response is 401 Unauthorized invalidates the cached token, fetches
a new one (exactly one token post), and retries exactly once (exactly two
speech posts in total); when the retried response is again 401 the call
returns `[]` with no further retries — the final state records 2 speech
posts and 1 token post.  (A falsy cached value would already be
re-fetched at entry by the `if not self._token` truthiness test.) -/
theorem att_unauthorized_retry (tr : AttTransport) (t tok2 jT : Json)
    (r1 r2 tokR : HttpResponse) (htt : pyTruthy t = true)
    (h1 : tr.speechResp 0 = .ok r1) (h1s : r1.status = 401)
    (htok : tr.tokenResp 0 = .ok tokR)
    (hj : jsonLoads tokR.body = some jT)
    (hk : pyGetKey jT "access_token" = .ok tok2)
    (h2 : tr.speechResp 1 = .ok r2) (h2s : r2.status = 401) :
    AttSTT.transcribe tr { _token := some t, tokenPosts := 0, speechPosts := 0 } =
      .ok ([], { _token := some tok2, tokenPosts := 1, speechPosts := 2 }) := by
  simp [AttSTT.transcribe, AttSTT.getResponse, AttSTT.token, AttSTT.fetchToken,
        htt, h1, h1s, htok, hj, hk, h2, h2s, raiseForStatus]

theorem att_unauthorized_retry_witness :
    AttSTT.transcribe attDoubly401
      { _token := some (.str "stale"), tokenPosts := 0, speechPosts := 0 } =
      .ok ([], { _token := some (.str "fresh"), tokenPosts := 1, speechPosts := 2 }) :=
  att_unauthorized_retry attDoubly401 (.str "stale") (.str "fresh")
    (.obj [("access_token", .str "fresh")])
    ⟨401, "Unauthorized"⟩ ⟨401, "Unauthorized"⟩
    ⟨200, "\x7b\"access_token\":\"fresh\"\x7d"⟩
    (by decide) rfl rfl rfl rfl rfl rfl rfl

/-- C8: the Wit.ai adapter maps a successful response whose `_text` field
is absent (KeyError) or empty (falsy) to `[]` without raising, and
uppercases the single transcript otherwise — concretely,
`{"_text":""}` yields `[]` and `{"_text":"hi"}` yields `["HI"]`. -/
theorem witai_text_field (r : HttpResponse) (j : Json) :
    (r.status < 400 → jsonLoads r.body = some j →
       pyGetKey j "_text" = .error .keyError → WitAiSTT.transcribe (.ok r) = .ok []) ∧
    (r.status < 400 → jsonLoads r.body = some j →
       pyGetKey j "_text" = .ok (.str "") → WitAiSTT.transcribe (.ok r) = .ok []) ∧
    WitAiSTT.transcribe (.ok ⟨200, "\x7b\"_text\":\"\"\x7d"⟩) = .ok [] ∧
    WitAiSTT.transcribe (.ok ⟨200, "\x7b\"_text\":\"hi\"\x7d"⟩) = .ok ["HI"] := by
  refine ⟨?_, ?_, by decide, by decide⟩
  · intro h h2 h3
    have h' : ¬ 400 ≤ r.status := by omega
    simp [WitAiSTT.transcribe, WitAiSTT.handle, raiseForStatus, h', h2, h3]
  · intro h h2 h3
    have h' : ¬ 400 ≤ r.status := by omega
    simp [WitAiSTT.transcribe, WitAiSTT.handle, raiseForStatus, h', h2, h3, pyTruthy]

theorem witai_text_field_witness :
    WitAiSTT.transcribe (.ok ⟨200, "\x7b\x7d"⟩) = .ok [] ∧
    WitAiSTT.transcribe (.ok ⟨200, "\x7b\"_text\":\"\"\x7d"⟩) = .ok [] :=
  ⟨(witai_text_field ⟨200, "\x7b\x7d"⟩ (.obj [])).1 (by decide) rfl rfl,
   (witai_text_field ⟨200, "\x7b\"_text\":\"\"\x7d"⟩ (.obj [("_text", .str "")])).2.1
     (by decide) rfl rfl⟩

theorem insertDesc_map (p : String × ℚ) (l : List (String × ℚ)) :
    AttSTT.insertDesc (pairToJson p) (l.map pairToJson) =
      .ok ((List.orderedInsert (fun a b => b.2 ≤ a.2) p l).map pairToJson) := by
  induction l with
  | nil => rfl
  | cons q qs ih =>
    have hge : jsonGe (pairToJson p).2 (pairToJson q).2 =
        .ok (decide (q.2 ≤ p.2)) := rfl
    by_cases h : q.2 ≤ p.2
    · simp [AttSTT.insertDesc, hge, h, List.orderedInsert]
    · simp [AttSTT.insertDesc, hge, h, List.orderedInsert, ih]

theorem sortDesc_map (l : List (String × ℚ)) :
    AttSTT.sortDesc (l.map pairToJson) = .ok ((sortNBest l).map pairToJson) := by
  induction l with
  | nil => rfl
  | cons p ps ih =>
    simp only [List.map_cons, AttSTT.sortDesc, ih, sortNBest, List.insertionSort]
    exact insertDesc_map p (List.insertionSort _ ps)

theorem mapExcept_extractPair (nbest : List (String × ℚ)) :
    mapExcept AttSTT.extractPair (nbest.map fun p =>
      Json.obj [("Hypothesis", .str p.1), ("Confidence", .num p.2)]) =
      .ok (nbest.map pairToJson) := by
  induction nbest with
  | nil => rfl
  | cons p ps ih =>
    have e1 : AttSTT.extractPair
        (Json.obj [("Hypothesis", .str p.1), ("Confidence", .num p.2)]) =
        .ok (pairToJson p) := rfl
    simp only [List.map_cons, mapExcept, e1, ih]

theorem mapExcept_upper_fst (l : List (String × ℚ)) :
    mapExcept (fun x => pyUpper x.1) (l.map pairToJson) =
      .ok (l.map fun p => pyUpperStr p.1) := by
  induction l with
  | nil => rfl
  | cons p ps ih =>
    have e : pyUpper (pairToJson p).1 = .ok (pyUpperStr p.1) := rfl
    simp only [List.map_cons, mapExcept, e, ih]

/-- C7: on an OK recognition envelope the AT&T adapter returns exactly the
n-best hypotheses of a descending-confidence permutation of the input,
uppercased; concretely, n-best `[("a",0.2),("b",0.9)]` comes back as
`["B","A"]`. -/
theorem att_confidence_order :
    (∀ nbest : List (String × ℚ), ∃ l : List (String × ℚ),
       List.Perm l nbest ∧
       List.Sorted (fun a b => b.2 ≤ a.2) l ∧
       AttSTT.handleJson (mkAttOk nbest) = .ok (l.map fun p => pyUpperStr p.1)) ∧
    (AttSTT.transcribe attConfExample attStaleState).toOption.map Prod.fst =
      some ["B", "A"] := by
  refine ⟨?_, by decide⟩
  intro nbest
  refine ⟨sortNBest nbest, List.perm_insertionSort _ nbest,
    List.sorted_insertionSort _ nbest, ?_⟩
  have e1 : pyGetKey (mkAttOk nbest) "Recognition" =
      .ok (.obj [("Status", .str "OK"), ("NBest", .arr (nbest.map fun p =>
        .obj [("Hypothesis", .str p.1), ("Confidence", .num p.2)]))]) := rfl
  have e2 : pyGetKey (Json.obj [("Status", .str "OK"), ("NBest",
        .arr (nbest.map fun p =>
          .obj [("Hypothesis", .str p.1), ("Confidence", .num p.2)]))])
      "Status" = .ok (.str "OK") := rfl
  have e3 : pyGetKey (Json.obj [("Status", .str "OK"), ("NBest",
        .arr (nbest.map fun p =>
          .obj [("Hypothesis", .str p.1), ("Confidence", .num p.2)]))])
      "NBest" = .ok (.arr (nbest.map fun p =>
        .obj [("Hypothesis", .str p.1), ("Confidence", .num p.2)])) := rfl
  simp [AttSTT.handleJson, AttSTT.parseRecognition, e1, e2, e3, jsonIsStr,
        pyIter, mapExcept_extractPair, sortDesc_map, mapExcept_upper_fst]
